import Mathlib

/-!
# Verification of the BambooAI QA retrieval cache (`bambooai/qa_retrieval.py`)

This file shallowly embeds the retrieval/admission core of the semantic QA
cache: `PineconeWrapper.query_index`, `fetch_record`, `check_similarity`,
`retrieve_matching_record` and `add_record`, together with the id derivation
`hashlib.sha256(question.encode()).hexdigest()` (a full executable SHA-256
over the UTF-8 bytes of the question).

External collaborators are modelled as data:
* the embedding backend is a function `String → Except EmbedErr (List ℚ)`
  (an exception in Python becomes `.error`);
* the vector index is an association list of records; its `query` operation
  (nearest-neighbour scoring happens inside the Pinecone service) is an
  arbitrary function from the stored records and the query vector to an
  optional top-1 match with a similarity score;
* `fetch` and `upsert` are modelled concretely on the association list
  (fetch by id; upsert = create-or-replace by id).

Every core function returns an `Outcome`: the Python return value (or the
propagated exception), the index state after the call, the list of questions
sent to the embedder, and the list of index operations performed, so that
frame conditions ("lookup never writes", "no embedding is computed") are
expressible.
-/

namespace BambooQA

/-! ## SHA-256 over byte lists (for `hashlib.sha256(...).hexdigest()`) -/

/-- `2^32`, the word modulus of SHA-256. -/
def M32 : Nat := 4294967296

/-- Right-rotation of a 32-bit word by `k` places. -/
def rotr (k x : Nat) : Nat := (x / 2 ^ k + x % 2 ^ k * 2 ^ (32 - k)) % M32

/-- Logical right shift of a 32-bit word. -/
def shr (k x : Nat) : Nat := x / 2 ^ k

/-- Bitwise complement within 32 bits. -/
def bnot32 (x : Nat) : Nat := Nat.xor x (M32 - 1)

/-- SHA-256 big sigma 0. -/
def bsig0 (x : Nat) : Nat := Nat.xor (Nat.xor (rotr 2 x) (rotr 13 x)) (rotr 22 x)

/-- SHA-256 big sigma 1. -/
def bsig1 (x : Nat) : Nat := Nat.xor (Nat.xor (rotr 6 x) (rotr 11 x)) (rotr 25 x)

/-- SHA-256 small sigma 0. -/
def ssig0 (x : Nat) : Nat := Nat.xor (Nat.xor (rotr 7 x) (rotr 18 x)) (shr 3 x)

/-- SHA-256 small sigma 1. -/
def ssig1 (x : Nat) : Nat := Nat.xor (Nat.xor (rotr 17 x) (rotr 19 x)) (shr 10 x)

/-- SHA-256 choice function. -/
def chf (x y z : Nat) : Nat := Nat.xor (Nat.land x y) (Nat.land (bnot32 x) z)

/-- SHA-256 majority function. -/
def majf (x y z : Nat) : Nat :=
  Nat.xor (Nat.xor (Nat.land x y) (Nat.land x z)) (Nat.land y z)

/-- The 64 SHA-256 round constants (FIPS 180-4, in decimal). -/
def K256 : List Nat :=
  [1116352408, 1899447441, 3049323471, 3921009573, 961987163, 1508970993,
   2453635748, 2870763221, 3624381080, 310598401, 607225278, 1426881987,
   1925078388, 2162078206, 2614888103, 3248222580, 3835390401, 4022224774,
   264347078, 604807628, 770255983, 1249150122, 1555081692, 1996064986,
   2554220882, 2821834349, 2952996808, 3210313671, 3336571891, 3584528711,
   113926993, 338241895, 666307205, 773529912, 1294757372, 1396182291,
   1695183700, 1986661051, 2177026350, 2456956037, 2730485921, 2820302411,
   3259730800, 3345764771, 3516065817, 3600352804, 4094571909, 275423344,
   430227734, 506948616, 659060556, 883997877, 958139571, 1322822218,
   1537002063, 1747873779, 1955562222, 2024104815, 2227730452, 2361852424,
   2428436474, 2756734187, 3204031479, 3329325298]

/-- The initial SHA-256 hash state (FIPS 180-4, in decimal). -/
def H256 : List Nat :=
  [1779033703, 3144134277, 1013904242, 2773480762,
   1359893119, 2600822924, 528734635, 1541459225]

/-- `n` as `k` big-endian bytes. -/
def toBytesBE : Nat → Nat → List Nat
  | 0, _ => []
  | k + 1, n => toBytesBE k (n / 256) ++ [n % 256]

/-- Group a byte list into 32-bit big-endian words. -/
def bytesToWords : List Nat → List Nat
  | a :: b :: c :: d :: rest => (((a * 256 + b) * 256 + c) * 256 + d) :: bytesToWords rest
  | _ => []

/-- Extend a 16-word message schedule by `fuel` further words. -/
def extendLoop : Nat → List Nat → List Nat
  | 0, w => w
  | n + 1, w =>
    let t := w.length
    extendLoop n (w ++
      [(ssig1 (w.getD (t - 2) 0) + w.getD (t - 7) 0 +
        ssig0 (w.getD (t - 15) 0) + w.getD (t - 16) 0) % M32])

/-- One SHA-256 compression round, on the 8-word working state. -/
def sha256Round (s : List Nat) (ki wi : Nat) : List Nat :=
  match s with
  | [a, b, c, d, e, f, g, h] =>
    let t1 := (h + bsig1 e + chf e f g + ki + wi) % M32
    let t2 := (bsig0 a + majf a b c) % M32
    [(t1 + t2) % M32, a, b, c, (d + t1) % M32, e, f, g]
  | s => s

/-- Process one 64-byte block against the running hash state. -/
def processBlock (h : List Nat) (block : List Nat) : List Nat :=
  let ws := extendLoop 48 (bytesToWords block)
  let s := (K256.zip ws).foldl (fun s kw => sha256Round s kw.1 kw.2) h
  (h.zip s).map (fun p => (p.1 + p.2) % M32)

/-- SHA-256 padding: append `0x80`, zeros to 56 mod 64, then the 64-bit
big-endian bit length. -/
def sha256Pad (msg : List Nat) : List Nat :=
  let L := msg.length
  msg ++ [128] ++ List.replicate ((119 - L % 64) % 64) 0 ++ toBytesBE 8 (8 * L)

/-- Split a byte list into 64-byte chunks (`fuel` bounds the recursion). -/
def chunksAux : Nat → List Nat → List (List Nat)
  | 0, _ => []
  | _, [] => []
  | fuel + 1, l => l.take 64 :: chunksAux fuel (l.drop 64)

/-- Lowercase hex digit. -/
def hexChar (n : Nat) : Char :=
  if n < 10 then Char.ofNat (48 + n) else Char.ofNat (87 + n)

/-- `n` as `k` lowercase hex digits (big-endian). -/
def natToHexAux : Nat → Nat → List Char
  | 0, _ => []
  | k + 1, n => natToHexAux k (n / 16) ++ [hexChar (n % 16)]

/-- The SHA-256 hex digest of a byte list, as `hashlib`'s `hexdigest()`. -/
def sha256hex (msg : List Nat) : String :=
  let padded := sha256Pad msg
  let hs := (chunksAux padded.length padded).foldl processBlock H256
  String.mk (hs.foldr (fun w acc => natToHexAux 8 w ++ acc) [])

/-- UTF-8 encoding of a Unicode code point, as Python's `str.encode()`. -/
def utf8Bytes (c : Nat) : List Nat :=
  if c < 128 then [c]
  else if c < 2048 then [192 + c / 64, 128 + c % 64]
  else if c < 65536 then [224 + c / 4096, 128 + c / 64 % 64, 128 + c % 64]
  else [240 + c / 262144, 128 + c / 4096 % 64, 128 + c / 64 % 64, 128 + c % 64]

/-- UTF-8 bytes of a string (`question.encode()`). -/
def strBytes (s : String) : List Nat :=
  (s.data.map (fun ch => utf8Bytes ch.toNat)).flatten

/-- `hashlib.sha256(question.encode()).hexdigest()` — the content-addressed
record id computed in `add_record` (line 151 of `qa_retrieval.py`). -/
def derive_id (question : String) : String := sha256hex (strBytes question)

/-! ## Data model -/

/-- The metadata dictionary stored with each vector, as built in
`add_record` line 166:
`{"plan": plan, "df_col": df_columns, "question_txt": question, "code": code, "rank": new_rank}`. -/
structure Metadata where
  plan : String
  df_col : List String
  question_txt : String
  code : String
  rank : Int
deriving DecidableEq, Repr

/-- One stored vector-db record: `(id, vector, metadata)` as upserted in
`add_record` line 167. -/
structure CacheRecord where
  id : String
  vector : List ℚ
  metadata : Metadata
deriving DecidableEq, Repr

/-- The vector index contents: at most one record per id (Pinecone upsert
is create-or-replace by id). -/
abbrev IndexState := List CacheRecord

/-- A top-1 query match as returned by `index.query(...)['matches'][0]`:
an id and a similarity score. -/
structure QueryMatch where
  id : String
  score : ℚ
deriving DecidableEq, Repr

/-- Embedding-backend failure (`vectorize` raising in Python). -/
inductive EmbedErr where
  | unavailable
deriving DecidableEq, Repr

/-- The external collaborators: the embedding backend (`vectorize_question`,
which may raise) and the Pinecone query endpoint (`index.query` with
`top_k=1`), which scores the stored records against the query vector inside
the external service and returns at most one match. -/
structure Env where
  vectorize : String → Except EmbedErr (List ℚ)
  query : IndexState → List ℚ → Option QueryMatch

/-- An index operation performed during a call, in order. -/
inductive IndexOp where
  | query (v : List ℚ)
  | fetch (id : String)
  | upsert (r : CacheRecord)
deriving DecidableEq, Repr

/-- Whether an operation is a write. -/
def IndexOp.isUpsert : IndexOp → Bool
  | .upsert _ => true
  | _ => false

/-- The observable outcome of a call to the core: the Python return value
(`.error` = exception propagated to the caller), the index state after the
call, the questions sent to the embedding backend, and the index operations
performed. -/
structure Outcome (α : Type) where
  res : Except EmbedErr α
  state : IndexState
  embeds : List String
  ops : List IndexOp

/-- Pinecone `index.upsert`: create-or-replace by id. -/
def upsert (st : IndexState) (r : CacheRecord) : IndexState :=
  r :: st.filter (fun x => !(x.id == r.id))

/-- Pinecone `index.fetch(ids=[id])` (lines 103–109): an id the index does
not hold yields an empty dict, reported as `None`. -/
def fetch_record (st : IndexState) (i : String) : Option CacheRecord :=
  st.find? (fun r => r.id == i)

/-- The rank stored under an id, if a record exists there. -/
def rankAt (st : IndexState) (i : String) : Option Int :=
  (fetch_record st i).map (fun r => r.metadata.rank)

/-! ## The core functions (`PineconeWrapper`, lines 90–171) -/

/-- `query_index` (lines 90–101): vectorize the question (propagating any
embedding failure), query the index with `top_k=1`, and return the first
match, or `None` when there are no matches. -/
def query_index (env : Env) (st : IndexState) (question : String) :
    Outcome (Option QueryMatch) :=
  match env.vectorize question with
  | .error e => ⟨.error e, st, [question], []⟩
  | .ok v =>
    match env.query st v with
    | none => ⟨.ok none, st, [question], [.query v]⟩
    | some m => ⟨.ok (some m), st, [question], [.query v]⟩

/-- `check_similarity` (lines 111–121): reject exactly when
`match['score'] < similarity_threshold`. -/
def check_similarity (m : QueryMatch) (similarity_threshold : ℚ) : Bool :=
  if m.score < similarity_threshold then false else true

/-- `retrieve_matching_record` (lines 123–141): query, similarity gate,
fetch, then the `match_df` schema gate (`metadata['df_col'] == df_columns`
compared for exact equality). -/
def retrieve_matching_record (env : Env) (st : IndexState) (question : String)
    (df_columns : List String) (similarity_threshold : ℚ)
    (match_df : Bool := true) : Outcome (Option CacheRecord) :=
  let q := query_index env st question
  match q.res with
  | .error e => ⟨.error e, st, q.embeds, q.ops⟩
  | .ok none => ⟨.ok none, st, q.embeds, q.ops⟩
  | .ok (some m) =>
    if check_similarity m similarity_threshold then
      match fetch_record st m.id with
      | none => ⟨.ok none, st, q.embeds, q.ops ++ [.fetch m.id]⟩
      | some vd =>
        if match_df then
          if vd.metadata.df_col == df_columns then
            ⟨.ok (some vd), st, q.embeds, q.ops ++ [.fetch m.id]⟩
          else
            ⟨.ok none, st, q.embeds, q.ops ++ [.fetch m.id]⟩
        else
          ⟨.ok (some vd), st, q.embeds, q.ops ++ [.fetch m.id]⟩
    else ⟨.ok none, st, q.embeds, q.ops⟩

/-- `add_record` (lines 143–171): below-floor early return, id derivation
from the question hash, vectorization (propagating failure), internal
schema-matched lookup, rank comparison, conditional upsert. -/
def add_record (env : Env) (st : IndexState) (question plan : String)
    (df_columns : List String) (code : String) (new_rank : Int)
    (similarity_threshold : ℚ) : Outcome Unit :=
  if new_rank < 8 then ⟨.ok (), st, [], []⟩
  else
    let id0 := derive_id question
    match env.vectorize question with
    | .error e => ⟨.error e, st, [question], []⟩
    | .ok vec =>
      let r := retrieve_matching_record env st question df_columns similarity_threshold true
      match r.res with
      | .error e => ⟨.error e, st, question :: r.embeds, r.ops⟩
      | .ok vd? =>
        let vector_rank : Int := match vd? with
          | some vd => vd.metadata.rank
          | none => -1
        let i : String := match vd? with
          | some vd => vd.id
          | none => id0
        if vector_rank < new_rank then
          let rec0 : CacheRecord :=
            ⟨i, vec, ⟨plan, df_columns, question, code, new_rank⟩⟩
          ⟨.ok (), upsert st rec0, question :: r.embeds, r.ops ++ [.upsert rec0]⟩
        else
          ⟨.ok (), st, question :: r.embeds, r.ops⟩

/-- Decidable equality of call results, so that concrete scenarios can be
settled by evaluation. -/
instance {α β : Type} [DecidableEq α] [DecidableEq β] :
    DecidableEq (Except α β) := fun a b =>
  match a, b with
  | .error x, .error y =>
    if h : x = y then .isTrue (by rw [h]) else .isFalse (by simp [h])
  | .ok x, .ok y =>
    if h : x = y then .isTrue (by rw [h]) else .isFalse (by simp [h])
  | .error _, .ok _ => .isFalse (by simp)
  | .ok _, .error _ => .isFalse (by simp)

/-! ## Concrete collaborator instances for scenarios

`exactQuery` is a legitimate behaviour of the cosine-metric Pinecone index:
when the query vector is exactly one of the stored vectors, the top-1 match
is that record with cosine similarity 1 (the maximal score); on an empty
index, or if no stored vector equals the query vector, it reports no match.
`constEnv` is an embedding backend that assigns every question the vector
`[1]` (identical question text always receives the identical vector, which
is all the scenarios below rely on). -/

/-- A cosine top-1 query behaviour restricted to exact vector matches. -/
def exactQuery (st : IndexState) (v : List ℚ) : Option QueryMatch :=
  (st.find? (fun r => r.vector == v)).map (fun r => ⟨r.id, 1⟩)

/-- A working environment: embedding always succeeds, query recognises
exactly-stored vectors with similarity score 1. -/
def constEnv : Env := ⟨fun _ => .ok [1], exactQuery⟩

/-- An environment whose embedding backend is down: `vectorize` raises. -/
def failEnv : Env := ⟨fun _ => .error .unavailable, fun _ _ => none⟩

/-- An environment whose query returns a near-miss: a match with score 0
(below any positive threshold). -/
def lowEnv : Env := ⟨fun _ => .ok [1], fun _ _ => some ⟨"mid", 0⟩⟩

/-- An environment whose query returns an id that the index does not hold
(inconsistent state between query and fetch). -/
def ghostEnv : Env := ⟨fun _ => .ok [1], fun _ _ => some ⟨"ghost", 1⟩⟩

/-- A second working environment with a different embedding backend (every
question maps to `[2]`) whose query never matches. -/
def otherEnv : Env := ⟨fun _ => .ok [2], fun _ _ => none⟩

/-- The scenario question. -/
def q0 : String := "How many rows?"

/-- The first schema fingerprint of Scenario C. -/
def colsAB : List String := ["a", "b"]

/-- The second schema fingerprint of Scenario C. -/
def colsXY : List String := ["x", "y"]

/-- The index after `record(q0, plan="P1", schema=colsAB, code="C1", rank=9)`
against an empty index: one record with rank 9 under `derive_id q0`. -/
def stC : IndexState := (add_record constEnv [] q0 "P1" colsAB "C1" 9 1).state

/-- A one-record index used to exercise the lookup-hit path of `add_record`
(the record's id is an arbitrary string, as the internal lookup adopts the
matched record's id whatever it is). -/
def vdHit : CacheRecord := ⟨"rid", [1], ⟨"P", colsAB, q0, "C", 9⟩⟩

/-- The index holding exactly `vdHit`. -/
def stHit : IndexState := [vdHit]

/-! ## Helper lemmas -/

/-- Filtering away records of a different id does not change a `find?` by
id. -/
theorem find_filter_eq (st : IndexState) (i j : String) (hne : j ≠ i) :
    (st.filter (fun x => !(x.id == j))).find? (fun r => r.id == i) =
      st.find? (fun r => r.id == i) := by
  induction st with
  | nil => rfl
  | cons a l ih =>
    rw [List.filter_cons]
    by_cases hj : a.id = j
    · have hai : ¬ (a.id == i) = true := by
        simp only [beq_iff_eq]
        intro hh
        exact hne (hj.symm.trans hh)
      rw [if_neg (by simp [hj])]
      rw [List.find?_cons_of_neg (p := fun (r : CacheRecord) => r.id == i) l hai, ih]
    · rw [if_pos (by simp [hj])]
      by_cases hi : a.id = i
      · rw [List.find?_cons_of_pos (p := fun (r : CacheRecord) => r.id == i) _ (by simp [hi]),
          List.find?_cons_of_pos (p := fun (r : CacheRecord) => r.id == i) l (by simp [hi])]
      · rw [List.find?_cons_of_neg (p := fun (r : CacheRecord) => r.id == i) _ (by simp [hi]),
          List.find?_cons_of_neg (p := fun (r : CacheRecord) => r.id == i) l (by simp [hi]), ih]

/-- Fetch after upsert: the upserted id now holds the new record; every
other id is untouched. -/
theorem fetch_record_upsert (st : IndexState) (r : CacheRecord) (i : String) :
    fetch_record (upsert st r) i =
      if r.id = i then some r else fetch_record st i := by
  by_cases h : r.id = i
  · simp [fetch_record, upsert, List.find?_cons, h]
  · simp [fetch_record, upsert, List.find?_cons, h, find_filter_eq st i r.id h]

/-- A fetched record carries the id it was fetched under. -/
theorem fetch_record_id (st : IndexState) (i : String) (vd : CacheRecord)
    (h : fetch_record st i = some vd) : vd.id = i := by
  have := List.find?_some h
  simpa using this

/-- A record returned by `retrieve_matching_record` was fetched from the
index under its own id. -/
theorem retrieve_found_fetch (env : Env) (st : IndexState) (question : String)
    (cols : List String) (thr : ℚ) (mdf : Bool) (vd : CacheRecord)
    (h : (retrieve_matching_record env st question cols thr mdf).res = .ok (some vd)) :
    fetch_record st vd.id = some vd := by
  simp only [retrieve_matching_record] at h
  split at h
  · simp at h
  · simp at h
  · rename_i m hm
    split at h
    · split at h
      · simp at h
      · rename_i vd' hf
        have hid := fetch_record_id st m.id vd' hf
        split at h
        · split at h
          · simp only [Except.ok.injEq, Option.some.injEq] at h
            subst h
            rw [hid]
            exact hf
          · simp at h
        · simp only [Except.ok.injEq, Option.some.injEq] at h
          subst h
          rw [hid]
          exact hf
    · simp at h

/-- The only exception `retrieve_matching_record` can propagate is an
embedding failure from `vectorize`. -/
theorem retrieve_error_vectorize (env : Env) (st : IndexState) (question : String)
    (cols : List String) (thr : ℚ) (mdf : Bool) (e : EmbedErr)
    (h : (retrieve_matching_record env st question cols thr mdf).res = .error e) :
    env.vectorize question = .error e := by
  rcases hv : env.vectorize question with e' | v
  · have hres : (retrieve_matching_record env st question cols thr mdf).res =
        .error e' := by
      simp [retrieve_matching_record, query_index, hv]
    rw [hres] at h
  · exfalso
    rcases hqr : env.query st v with _ | m
    · simp [retrieve_matching_record, query_index, hv, hqr] at h
    · simp only [retrieve_matching_record, query_index, hv, hqr] at h
      by_cases hsim : check_similarity m thr = true
      · simp only [hsim, if_true] at h
        rcases hf : fetch_record st m.id with _ | vd
        · simp [hf] at h
        · simp only [hf] at h
          cases mdf
          · simp at h
          · by_cases hc : (vd.metadata.df_col == cols) = true <;> simp [hc] at h
      · simp [hsim] at h

/-- When the internal lookup of `add_record` finds a record, the write is
conditional on a strict rank improvement and goes to the found record's id. -/
theorem add_record_state_found (env : Env) (st : IndexState)
    (question plan : String) (cols : List String) (code : String)
    (nr : Int) (thr : ℚ) (vec : List ℚ) (vd : CacheRecord)
    (h8 : ¬ nr < 8)
    (hv : env.vectorize question = .ok vec)
    (hr : (retrieve_matching_record env st question cols thr true).res = .ok (some vd)) :
    (add_record env st question plan cols code nr thr).state =
      if vd.metadata.rank < nr
      then upsert st ⟨vd.id, vec, ⟨plan, cols, question, code, nr⟩⟩
      else st := by
  by_cases hlt : vd.metadata.rank < nr
  · simp [add_record, hv, hr, h8, hlt]
  · simp [add_record, hv, hr, h8, hlt]

/-- When the internal lookup of `add_record` finds nothing, the write is
unconditional (the default rank `-1` always loses) and goes to the
question's own content-hash id. -/
theorem add_record_state_none (env : Env) (st : IndexState)
    (question plan : String) (cols : List String) (code : String)
    (nr : Int) (thr : ℚ) (vec : List ℚ)
    (h8 : ¬ nr < 8)
    (hv : env.vectorize question = .ok vec)
    (hr : (retrieve_matching_record env st question cols thr true).res = .ok none) :
    (add_record env st question plan cols code nr thr).state =
      upsert st ⟨derive_id question, vec, ⟨plan, cols, question, code, nr⟩⟩ := by
  have hlt : (-1 : Int) < nr := by omega
  simp [add_record, hv, hr, h8, hlt]

/-- Below the quality floor the index state is untouched. -/
theorem add_record_state_below_floor (env : Env) (st : IndexState)
    (question plan : String) (cols : List String) (code : String)
    (nr : Int) (thr : ℚ) (h : nr < 8) :
    (add_record env st question plan cols code nr thr).state = st := by
  unfold add_record
  rw [if_pos h]

/-- A failing embedder keeps `add_record` from reaching the index: the state
is unchanged whatever the rank. -/
theorem add_record_state_vec_err (env : Env) (st : IndexState)
    (question plan : String) (cols : List String) (code : String)
    (nr : Int) (thr : ℚ) (e : EmbedErr)
    (hv : env.vectorize question = .error e) :
    (add_record env st question plan cols code nr thr).state = st := by
  by_cases h8 : nr < 8
  · simp [add_record, h8]
  · simp [add_record, h8, hv]

/-! ## Claim theorems -/

/-- **C4** Similarity gate boundary: whenever the query produces a match,
the gate accepts it exactly when its score is at least the caller-supplied
threshold (a score exactly equal to the threshold is accepted), and a score
strictly below the threshold makes the lookup return none. -/
theorem similarity_gate_boundary (env : Env) (st : IndexState)
    (question : String) (cols : List String) (thr : ℚ) (mdf : Bool)
    (m : QueryMatch) :
    (check_similarity m thr = true ↔ thr ≤ m.score) ∧
    ((query_index env st question).res = .ok (some m) → m.score < thr →
      (retrieve_matching_record env st question cols thr mdf).res = .ok none) := by
  constructor
  · unfold check_similarity
    by_cases hlt : m.score < thr
    · simp [hlt, not_le.2 hlt]
    · simp [hlt, le_of_not_lt hlt]
  · intro hq hlt
    have hcs : check_similarity m thr = false := by simp [check_similarity, hlt]
    simp [retrieve_matching_record, hq, hcs]

/-- Witness for C4: a concrete environment whose query reports a match with
score 0 against threshold 1; the gate equivalence is instantiated there and
the lookup returns none. -/
theorem similarity_gate_boundary_witness :
    (query_index lowEnv [] "q").res = .ok (some ⟨"mid", 0⟩) ∧
    (check_similarity ⟨"mid", 0⟩ 1 = true ↔ (1 : ℚ) ≤ 0) ∧
    (0 : ℚ) < 1 ∧
    (retrieve_matching_record lowEnv [] "q" [] 1 true).res = .ok none := by
  have h := similarity_gate_boundary lowEnv [] "q" [] 1 true ⟨"mid", 0⟩
  exact ⟨rfl, h.1, by decide, h.2 rfl (by decide)⟩

/-- **C5** Quality floor: a `record` call with rank below 8 is a complete
no-op — it returns normally, leaves the index unchanged, sends nothing to
the embedding backend, and performs no index operation. -/
theorem quality_floor_noop (env : Env) (st : IndexState)
    (question plan : String) (cols : List String) (code : String)
    (new_rank : Int) (thr : ℚ) (h : new_rank < 8) :
    add_record env st question plan cols code new_rank thr =
      ⟨.ok (), st, [], []⟩ := by
  unfold add_record
  rw [if_pos h]

/-- Witness for C5: rank 7 against a non-empty index and a working
environment is a no-op. -/
theorem quality_floor_noop_witness :
    (7 : Int) < 8 ∧
    add_record constEnv stHit q0 "P" colsAB "C" 7 1 = ⟨.ok (), stHit, [], []⟩ :=
  ⟨by decide, quality_floor_noop constEnv stHit q0 "P" colsAB "C" 7 1 (by decide)⟩

/-- **C7** Schema gate: when a fetched record is similarity-accepted, the
lookup with `matchSchema = true` returns it exactly when its stored
`schemaFingerprint` equals the caller's (none on any inequality), and with
`matchSchema = false` returns it regardless of the fingerprint. -/
theorem schema_gate_exact_equality (env : Env) (st : IndexState)
    (question : String) (cols : List String) (thr : ℚ) (mdf : Bool)
    (m : QueryMatch) (vd : CacheRecord)
    (hq : (query_index env st question).res = .ok (some m))
    (hsim : check_similarity m thr = true)
    (hf : fetch_record st m.id = some vd) :
    (retrieve_matching_record env st question cols thr mdf).res =
      .ok (if mdf then (if vd.metadata.df_col = cols then some vd else none)
           else some vd) := by
  simp only [retrieve_matching_record, hq, hsim, if_true, hf]
  cases mdf
  · simp
  · by_cases hc : vd.metadata.df_col = cols
    · simp [hc]
    · simp [hc]

/-- Witness for C7: a schema-mismatched record is rejected by the
`matchSchema = true` lookup at a concrete state. -/
theorem schema_gate_witness :
    (query_index constEnv stHit q0).res = .ok (some ⟨"rid", 1⟩) ∧
    check_similarity ⟨"rid", 1⟩ 1 = true ∧
    fetch_record stHit "rid" = some vdHit ∧
    (retrieve_matching_record constEnv stHit q0 colsXY 1 true).res = .ok none := by
  refine ⟨rfl, by decide, rfl, ?_⟩
  exact schema_gate_exact_equality constEnv stHit q0 colsXY 1 true
    ⟨"rid", 1⟩ vdHit rfl (by decide) rfl

/-- **C9** Inconsistent index state is a soft miss: when the query reports
a match whose id the subsequent fetch cannot find, the lookup returns none
(an `.ok` result, not a propagated failure). -/
theorem fetch_notfound_soft_miss (env : Env) (st : IndexState)
    (question : String) (cols : List String) (thr : ℚ) (mdf : Bool)
    (m : QueryMatch)
    (hq : (query_index env st question).res = .ok (some m))
    (hf : fetch_record st m.id = none) :
    (retrieve_matching_record env st question cols thr mdf).res = .ok none := by
  by_cases hsim : check_similarity m thr = true
  · simp [retrieve_matching_record, hq, hsim, hf]
  · simp [retrieve_matching_record, hq, hsim]

/-- Witness for C9: a query reporting id "ghost" against an empty index is
a soft miss. -/
theorem fetch_notfound_witness :
    (query_index ghostEnv [] "q").res = .ok (some ⟨"ghost", 1⟩) ∧
    fetch_record [] "ghost" = none ∧
    (retrieve_matching_record ghostEnv [] "q" [] 1 true).res = .ok none :=
  ⟨rfl, rfl, fetch_notfound_soft_miss ghostEnv [] "q" [] 1 true ⟨"ghost", 1⟩ rfl rfl⟩

/-- **C10** Lookup is read-only: whatever its outcome,
`retrieve_matching_record` leaves the index state exactly as it was and
performs no upsert operation. -/
theorem lookup_readonly (env : Env) (st : IndexState) (question : String)
    (cols : List String) (thr : ℚ) (mdf : Bool) :
    (retrieve_matching_record env st question cols thr mdf).state = st ∧
    ((retrieve_matching_record env st question cols thr mdf).ops.all
       (fun op => !op.isUpsert)) = true := by
  constructor
  · simp only [retrieve_matching_record]
    repeat' split
    all_goals rfl
  · simp only [retrieve_matching_record, query_index]
    repeat' split
    all_goals simp [IndexOp.isUpsert]

/-- **C3, counterexample** The claim says a failing embedder makes lookup
return none and record return normally; in the code the exception
propagates out of both: at a concrete failing environment both calls end
in `.error`, not in `.ok`. -/
theorem embed_failure_counterexample :
    (retrieve_matching_record failEnv [] "q" [] 1 true).res =
      .error .unavailable ∧
    (add_record failEnv [] "q" "p" [] "c" 9 1).res = .error .unavailable :=
  ⟨rfl, rfl⟩

/-- **C3, amended** Embedder failure propagates: if `vectorize` fails, the
lookup ends in that error instead of returning none, and a `record` call
with rank ≥ 8 ends in that error instead of returning normally; in both
cases no index write happens (the state is unchanged and `record` performs
no index operation at all). -/
theorem embed_failure_propagates_no_write (env : Env) (st : IndexState)
    (question : String) (cols : List String) (thr : ℚ) (mdf : Bool)
    (plan code : String) (nr : Int) (e : EmbedErr)
    (hv : env.vectorize question = .error e) (h8 : 8 ≤ nr) :
    (retrieve_matching_record env st question cols thr mdf).res = .error e ∧
    (retrieve_matching_record env st question cols thr mdf).state = st ∧
    (add_record env st question plan cols code nr thr).res = .error e ∧
    (add_record env st question plan cols code nr thr).state = st ∧
    (add_record env st question plan cols code nr thr).ops = [] := by
  have h8' : ¬ nr < 8 := by omega
  refine ⟨?_, ?_, ?_, ?_, ?_⟩
  · simp [retrieve_matching_record, query_index, hv]
  · simp [retrieve_matching_record, query_index, hv]
  · simp [add_record, h8', hv]
  · simp [add_record, h8', hv]
  · simp [add_record, h8', hv]

/-- Witness for the amended C3 at the concrete failing environment. -/
theorem embed_failure_witness :
    failEnv.vectorize "q" = .error .unavailable ∧ (8 : Int) ≤ 9 ∧
    (retrieve_matching_record failEnv [] "q" [] 1 true).state = [] ∧
    (add_record failEnv [] "q" "p" [] "c" 9 1).state = [] ∧
    (add_record failEnv [] "q" "p" [] "c" 9 1).ops = [] := by
  have h := embed_failure_propagates_no_write failEnv [] "q" [] 1 true
    "p" "c" 9 .unavailable rfl (by decide)
  exact ⟨rfl, by decide, h.2.1, h.2.2.2.1, h.2.2.2.2⟩

/-- **C6** Monotonic rank replacement with strict-tie policy: when the
internal schema-matched lookup finds an existing record of rank `R`, a
`record` call with `newRank ≤ R` (and `newRank ≥ 8`) leaves the index
unchanged, and a call with `newRank > R` replaces the record under the
found record's id with the new plan, schema, question text, code and rank;
equal rank never triggers replacement. -/
theorem monotonic_rank_replacement (env : Env) (st : IndexState)
    (question plan : String) (cols : List String) (code : String)
    (nr : Int) (thr : ℚ) (vec : List ℚ) (vd : CacheRecord)
    (h8 : 8 ≤ nr)
    (hv : env.vectorize question = .ok vec)
    (hr : (retrieve_matching_record env st question cols thr true).res = .ok (some vd)) :
    (nr ≤ vd.metadata.rank →
      (add_record env st question plan cols code nr thr).state = st) ∧
    (vd.metadata.rank < nr →
      (add_record env st question plan cols code nr thr).state =
        upsert st ⟨vd.id, vec, ⟨plan, cols, question, code, nr⟩⟩) := by
  have hst := add_record_state_found env st question plan cols code nr thr
    vec vd (by omega) hv hr
  constructor
  · intro hle
    rw [hst, if_neg (by omega)]
  · intro hlt
    rw [hst, if_pos hlt]

/-- Witness for C6 at a concrete one-record index: rank 9 over stored rank
9 is retained (strict tie), rank 10 replaces under the stored id. -/
theorem monotonic_rank_replacement_witness :
    (8 : Int) ≤ 9 ∧ constEnv.vectorize q0 = .ok [1] ∧
    (retrieve_matching_record constEnv stHit q0 colsAB 1 true).res =
      .ok (some vdHit) ∧
    (add_record constEnv stHit q0 "P2" colsAB "C2" 9 1).state = stHit ∧
    (add_record constEnv stHit q0 "P3" colsAB "C3" 10 1).state =
      upsert stHit ⟨"rid", [1], ⟨"P3", colsAB, q0, "C3", 10⟩⟩ := by
  refine ⟨by decide, rfl, rfl, ?_, ?_⟩
  · exact (monotonic_rank_replacement constEnv stHit q0 "P2" colsAB "C2"
      9 1 [1] vdHit (by decide) rfl rfl).1 (by decide)
  · exact (monotonic_rank_replacement constEnv stHit q0 "P3" colsAB "C3"
      10 1 [1] vdHit (by decide) rfl rfl).2 (by decide)

/-- **C8** Determinism of identity: whenever the internal lookup finds
nothing, the record written by `add_record` goes under `derive_id question`
— a content hash of the question text alone — so two calls sharing only
the question text (different environments, states, schemas, ranks,
thresholds) write under the identical id. -/
theorem id_content_addressed (env1 : Env) (st1 : IndexState) (p1 : String)
    (cols1 : List String) (c1 : String) (nr1 : Int) (thr1 : ℚ) (vec1 : List ℚ)
    (env2 : Env) (st2 : IndexState) (p2 : String)
    (cols2 : List String) (c2 : String) (nr2 : Int) (thr2 : ℚ) (vec2 : List ℚ)
    (question : String)
    (h81 : 8 ≤ nr1) (h82 : 8 ≤ nr2)
    (hv1 : env1.vectorize question = .ok vec1)
    (hv2 : env2.vectorize question = .ok vec2)
    (hr1 : (retrieve_matching_record env1 st1 question cols1 thr1 true).res = .ok none)
    (hr2 : (retrieve_matching_record env2 st2 question cols2 thr2 true).res = .ok none) :
    (add_record env1 st1 question p1 cols1 c1 nr1 thr1).state =
      upsert st1 ⟨derive_id question, vec1, ⟨p1, cols1, question, c1, nr1⟩⟩ ∧
    (add_record env2 st2 question p2 cols2 c2 nr2 thr2).state =
      upsert st2 ⟨derive_id question, vec2, ⟨p2, cols2, question, c2, nr2⟩⟩ :=
  ⟨add_record_state_none env1 st1 question p1 cols1 c1 nr1 thr1 vec1
      (by omega) hv1 hr1,
   add_record_state_none env2 st2 question p2 cols2 c2 nr2 thr2 vec2
      (by omega) hv2 hr2⟩

/-- Witness for C8: two environments with different embedding backends,
different states, schemas, ranks and thresholds both write the record for
`q0` under the same content-hash id. -/
theorem id_content_addressed_witness :
    (8 : Int) ≤ 9 ∧ (8 : Int) ≤ 10 ∧
    constEnv.vectorize q0 = .ok [1] ∧ otherEnv.vectorize q0 = .ok [2] ∧
    (retrieve_matching_record constEnv [] q0 colsAB 1 true).res = .ok none ∧
    (retrieve_matching_record otherEnv stHit q0 colsXY 0 true).res = .ok none ∧
    (add_record constEnv [] q0 "P1" colsAB "C1" 9 1).state =
      upsert [] ⟨derive_id q0, [1], ⟨"P1", colsAB, q0, "C1", 9⟩⟩ ∧
    (add_record otherEnv stHit q0 "P2" colsXY "C2" 10 0).state =
      upsert stHit ⟨derive_id q0, [2], ⟨"P2", colsXY, q0, "C2", 10⟩⟩ := by
  have h := id_content_addressed constEnv [] "P1" colsAB "C1" 9 1 [1]
    otherEnv stHit "P2" colsXY "C2" 10 0 [2] q0
    (by decide) (by decide) rfl rfl rfl rfl
  exact ⟨by decide, by decide, rfl, rfl, rfl, rfl, h.1, h.2⟩

/-- **C1, counterexample** Rank monotonicity fails exactly in the case the
claim singles out: starting from the index `stC` holding the rank-9 record
for `q0` under schema `colsAB` (written by `record` itself), a `record`
call with the same question, schema `colsXY` and rank 8 misses in the
schema-matched lookup, defaults the baseline to −1, and overwrites the
record at `derive_id q0`: the rank stored there drops from 9 to 8. -/
theorem rank_decrease_counterexample :
    stC = [⟨derive_id q0, [1], ⟨"P1", colsAB, q0, "C1", 9⟩⟩] ∧
    rankAt stC (derive_id q0) = some 9 ∧
    rankAt (add_record constEnv stC q0 "P2" colsXY "C2" 8 1).state
      (derive_id q0) = some 8 := by
  refine ⟨by decide, by decide, by decide⟩

/-- **C1, amended** Rank monotonicity holds under a guard: provided that a
lookup miss implies no record is stored at the question's content-hash id
(in particular whenever the internal schema-matched lookup finds a record,
or the hash id is vacant), a `record` call (1) never decreases the rank
stored under any id, and (2) replaces a record found by the internal
lookup only with strictly greater rank — a call whose rank is less than
or equal to the found record's rank (equal rank included) leaves the index
entirely unchanged. Without the guard — a lookup miss while a record with
a different schema fingerprint sits at the hash id — the write is
unconditional and can lower the stored rank. -/
theorem rank_mono_of_guarded_lookup (env : Env) (st : IndexState)
    (question plan : String) (cols : List String) (code : String)
    (nr : Int) (thr : ℚ)
    (hguard : (retrieve_matching_record env st question cols thr true).res = .ok none →
      fetch_record st (derive_id question) = none) :
    (∀ (i : String) (r : Int), rankAt st i = some r →
      ∃ r', rankAt (add_record env st question plan cols code nr thr).state i =
        some r' ∧ r ≤ r') ∧
    (∀ vd : CacheRecord,
      (retrieve_matching_record env st question cols thr true).res = .ok (some vd) →
      nr ≤ vd.metadata.rank →
      (add_record env st question plan cols code nr thr).state = st) := by
  constructor
  · intro i r hr
    by_cases h8 : nr < 8
    · refine ⟨r, ?_, le_refl r⟩
      rw [add_record_state_below_floor env st question plan cols code nr thr h8]
      exact hr
    · rcases hv : env.vectorize question with e | vec
      · refine ⟨r, ?_, le_refl r⟩
        rw [add_record_state_vec_err env st question plan cols code nr thr e hv]
        exact hr
      · rcases hres : (retrieve_matching_record env st question cols thr true).res
          with e | vd?
        · exfalso
          have hcon := retrieve_error_vectorize env st question cols thr true e hres
          rw [hv] at hcon
          exact Except.noConfusion hcon
        · rcases vd? with _ | vd
          · have hfn := hguard hres
            rw [add_record_state_none env st question plan cols code nr thr vec
              h8 hv hres]
            by_cases hid : derive_id question = i
            · exfalso
              rw [hid] at hfn
              rw [rankAt, hfn] at hr
              exact Option.noConfusion hr
            · refine ⟨r, ?_, le_refl r⟩
              rw [rankAt, fetch_record_upsert, if_neg hid]
              exact hr
          · rw [add_record_state_found env st question plan cols code nr thr vec
              vd h8 hv hres]
            by_cases hlt : vd.metadata.rank < nr
            · rw [if_pos hlt]
              have hfv := retrieve_found_fetch env st question cols thr true vd hres
              by_cases hid : vd.id = i
              · refine ⟨nr, ?_, ?_⟩
                · rw [rankAt, fetch_record_upsert, if_pos hid]
                  rfl
                · rw [← hid, rankAt, hfv] at hr
                  simp at hr
                  omega
              · refine ⟨r, ?_, le_refl r⟩
                rw [rankAt, fetch_record_upsert, if_neg hid]
                exact hr
            · rw [if_neg hlt]
              exact ⟨r, hr, le_refl r⟩
  · intro vd hres hle
    by_cases h8 : nr < 8
    · exact add_record_state_below_floor env st question plan cols code nr thr h8
    · rcases hv : env.vectorize question with e | vec
      · exact add_record_state_vec_err env st question plan cols code nr thr e hv
      · rw [add_record_state_found env st question plan cols code nr thr vec
          vd h8 hv hres]
        rw [if_neg (by omega)]

/-- Witness for the amended C1: at the one-record index `stHit` the lookup
hits (so the guard's antecedent is false); a `record` call with rank 9 —
exactly the stored rank — leaves the index unchanged (no equal-rank
replacement), and the rank stored under "rid" does not decrease. -/
theorem rank_mono_witness :
    (∃ r', rankAt (add_record constEnv stHit q0 "P2" colsAB "C2" 9 1).state
      "rid" = some r' ∧ (9 : Int) ≤ r') ∧
    (add_record constEnv stHit q0 "P2" colsAB "C2" 9 1).state = stHit := by
  have h := rank_mono_of_guarded_lookup constEnv stHit q0 "P2" colsAB "C2" 9 1
    (fun hc => absurd hc (by decide))
  exact ⟨h.1 "rid" 9 (by decide), h.2 vdHit rfl (by decide)⟩

/-- **C2, counterexample** Scenario C ends with a single record, not two:
after `record(q0, colsAB, rank 9)` and then `record(q0, colsXY, rank 10)`,
the write goes under the same content-hash id and replaces the first
record, so exactly one record exists and it carries schema `colsXY` — no
record with schema `colsAB` survives. -/
theorem scenarioC_two_records_counterexample :
    stC = [⟨derive_id q0, [1], ⟨"P1", colsAB, q0, "C1", 9⟩⟩] ∧
    (add_record constEnv stC q0 "P2" colsXY "C2" 10 1).state.length = 1 ∧
    ∀ r ∈ (add_record constEnv stC q0 "P2" colsXY "C2" 10 1).state,
      r.metadata.df_col = colsXY := by
  refine ⟨by decide, by decide, by decide⟩

/-- **C2, amended** Scenario C: from the index holding the rank-9 record
for `q0` under schema `colsAB`, a `record` call with the same literal
question text, schema `colsXY` and rank 10 makes the schema-matched lookup
find no match, defaults the existing rank to −1, and writes the new record
under the question's own content-hash id — replacing the previous record
there, so that afterwards a single record exists for that question text,
carrying schema `colsXY` and rank 10. -/
theorem scenarioC_replaces_under_same_id :
    (retrieve_matching_record constEnv stC q0 colsXY 1 true).res = .ok none ∧
    (add_record constEnv stC q0 "P2" colsXY "C2" 10 1).state =
      [⟨derive_id q0, [1], ⟨"P2", colsXY, q0, "C2", 10⟩⟩] := by
  refine ⟨by decide, by decide⟩

end BambooQA
